import Mathlib

/-!
Verification of the Vietnam holiday module (src/holidays/countries/vietnam.py).

The development shallowly embeds the module: Gregorian dates are represented
by their rata-die day number (proleptic Gregorian, day 1 = 0001-01-01), the
bit-packed lunisolar table is the literal list of the source, the converter
helpers `get_leap_month`, `lunar_month_days`, `lunar_year_days` and
`get_solar_date` mirror the Python functions for in-range years, the variants
suffixed with a question mark additionally model Python list indexing
(negative indices wrap, indices past the end raise, modelled as `none`), and
`_populate` is modelled as the ordered list of (date, name) insertions the
method performs on the holiday mapping.
-/

set_option maxRecDepth 2000000

/-- Gregorian leap-year test (Python `calendar`/`datetime` rule). -/
def isLeapYear (y : Nat) : Bool :=
  (y % 4 == 0 && y % 100 != 0) || y % 400 == 0

/-- Number of days of Gregorian month `m` (1..12) in year `y`. -/
def gregorianMonthLength (y m : Nat) : Nat :=
  if m = 2 then (if isLeapYear y then 29 else 28)
  else if m = 4 ∨ m = 6 ∨ m = 9 ∨ m = 11 then 30 else 31

/-- Rata-die day number of the Gregorian date `(y, m, d)`:
day 1 is 0001-01-01 of the proleptic Gregorian calendar.  This represents the
`datetime.date` values of the source; adding `n` to it models
`date + timedelta(n)`. -/
def rataDie (y m d : Nat) : Nat :=
  365 * (y - 1) + (y - 1) / 4 - (y - 1) / 100 + (y - 1) / 400
    + (List.range' 1 (m - 1)).foldl (fun s mm => s + gregorianMonthLength y mm) 0 + d

/-- Python `date.weekday()`: Monday = 0, ..., Sunday = 6. -/
def pyWeekday (rd : Nat) : Nat := (rd + 6) % 7

namespace Vietnam

/-- The packed lunisolar table `Vietnam.g_lunar_month_days`, copied verbatim
from the source (src/holidays/countries/vietnam.py lines 91-132), one entry
per lunar year 1901..2099. -/
def g_lunar_month_days : List Nat := [
    0xF0EA4, 0xF1D4A, 0x52C94, 0xF0C96, 0xF1536, 0x42AAC, 0xF0AD4, 0xF16B2,
    0x22EA4, 0xF0EA4, 0x6364A, 0xF164A, 0xF1496, 0x52956, 0xF055A, 0xF0AD6,
    0x216D2, 0xF1B52, 0x73B24, 0xF1D24, 0xF1A4A, 0x5349A, 0xF14AC, 0xF056C,
    0x42B6A, 0xF0DA8, 0xF1D52, 0x23D24, 0xF1D24, 0x61A4C, 0xF0A56, 0xF14AE,
    0x5256C, 0xF16B4, 0xF0DA8, 0x31D92, 0xF0E92, 0x72D26, 0xF1526, 0xF0A56,
    0x614B6, 0xF155A, 0xF0AD4, 0x436AA, 0xF1748, 0xF1692, 0x23526, 0xF152A,
    0x72A5A, 0xF0A6C, 0xF155A, 0x52B54, 0xF0B64, 0xF1B4A, 0x33A94, 0xF1A94,
    0x8152A, 0xF152E, 0xF0AAC, 0x6156A, 0xF15AA, 0xF0DA4, 0x41D4A, 0xF1D4A,
    0xF0C94, 0x3192E, 0xF1536, 0x72AB4, 0xF0AD4, 0xF16D2, 0x52EA4, 0xF16A4,
    0xF164A, 0x42C96, 0xF1496, 0x82956, 0xF055A, 0xF0ADA, 0x616D2, 0xF1B52,
    0xF1B24, 0x43A4A, 0xF1A4A, 0xA349A, 0xF14AC, 0xF056C, 0x60B6A, 0xF0DAA,
    0xF1D92, 0x53D24, 0xF1D24, 0xF1A4C, 0x314AC, 0xF14AE, 0x829AC, 0xF06B4,
    0xF0DAA, 0x52D92, 0xF0E92, 0xF0D26, 0x42A56, 0xF0A56, 0xF14B6, 0x22AB4,
    0xF0AD4, 0x736AA, 0xF1748, 0xF1692, 0x53526, 0xF152A, 0xF0A5A, 0x4155A,
    0xF156A, 0x92B54, 0xF0BA4, 0xF1B4A, 0x63A94, 0xF1A94, 0xF192A, 0x42A5C,
    0xF0AAC, 0xF156A, 0x22B64, 0xF0DA4, 0x61D52, 0xF0E4A, 0xF0C96, 0x5192E,
    0xF1956, 0xF0AB4, 0x315AC, 0xF16D2, 0xB2EA4, 0xF16A4, 0xF164A, 0x63496,
    0xF1496, 0xF0956, 0x50AB6, 0xF0B5A, 0xF16D4, 0x236A4, 0xF1B24, 0x73A4A,
    0xF1A4A, 0xF14AA, 0x5295A, 0xF096C, 0xF0B6A, 0x31B54, 0xF1D92, 0x83D24,
    0xF1D24, 0xF1A4C, 0x614AC, 0xF14AE, 0xF09AC, 0x40DAA, 0xF0EAA, 0xF0E92,
    0x31D26, 0xF0D26, 0x72A56, 0xF0A56, 0xF14B6, 0x52AB4, 0xF0AD4, 0xF16CA,
    0x42E94, 0xF1694, 0x8352A, 0xF152A, 0xF0A5A, 0x6155A, 0xF156A, 0xF0B54,
    0x4174A, 0xF1B4A, 0xF1A94, 0x3392A, 0xF192C, 0x7329C, 0xF0AAC, 0xF156A,
    0x52B64, 0xF0DA4, 0xF1D4A, 0x41C94, 0xF0C96, 0x8192E, 0xF0956, 0xF0AB6,
    0x615AC, 0xF16D4, 0xF0EA4, 0x42E4A, 0xF164A, 0xF1516, 0x22936
]

/-- First supported lunar year (source line 134). -/
def START_YEAR : Nat := 1901

/-- Last supported lunar year: `1900 + len(g_lunar_month_days)` (source line 134). -/
def END_YEAR : Nat := 1900 + g_lunar_month_days.length

/-- Lunar side of the start anchor, `(1901, 1, 1)` (source line 136). -/
def LUNAR_START_DATE : Nat × Nat × Nat := (1901, 1, 1)

/-- Solar side of the start anchor, `datetime(1901, 2, 19)` (source line 136). -/
def SOLAR_START_DATE : Nat := rataDie 1901 2 19

/-- Lunar side of the end anchor, `(2099, 12, 30)` (source line 138). -/
def LUNAR_END_DATE : Nat × Nat × Nat := (2099, 12, 30)

/-- Solar side of the end anchor as written in the source, `datetime(2100, 2, 18)`
(source line 138).  The adjacent source comment instead says the Gregorian
date for lunar 2099-12-30 is 2100/2/8. -/
def SOLAR_END_DATE : Nat := rataDie 2100 2 18

/-- Python list indexing `l[i]`: a negative index `i` with `-i <= len(l)`
wraps to `l[len(l) + i]`; any other out-of-bounds index raises `IndexError`,
modelled as `none`. -/
def pyGet (l : List Nat) (i : Int) : Option Nat :=
  if 0 ≤ i then l[i.toNat]?
  else if (-i).toNat ≤ l.length then l[l.length - (-i).toNat]? else none

/-- `Vietnam.get_leap_month` with Python list-indexing semantics (source
lines 140-142): `(g_lunar_month_days[lunar_year - START_YEAR] >> 16) & 0x0F`. -/
def get_leap_month? (lunar_year : Int) : Option Nat :=
  (pyGet g_lunar_month_days (lunar_year - (START_YEAR : Int))).map fun e =>
    (e >>> 16) &&& 0x0F

/-- `Vietnam.lunar_month_days` with Python list-indexing semantics (source
lines 144-146): `29 + ((g_lunar_month_days[lunar_year - START_YEAR] >> lunar_month) & 0x01)`. -/
def lunar_month_days? (lunar_year : Int) (lunar_month : Nat) : Option Nat :=
  (pyGet g_lunar_month_days (lunar_year - (START_YEAR : Int))).map fun e =>
    29 + ((e >>> lunar_month) &&& 0x01)

/-- Table entry of an in-range lunar year, `g_lunar_month_days[year - START_YEAR]`. -/
def encoded (year : Nat) : Nat := g_lunar_month_days.getD (year - START_YEAR) 0

/-- `Vietnam.get_leap_month` restricted to in-range years (source lines 140-142). -/
def get_leap_month (lunar_year : Nat) : Nat :=
  (encoded lunar_year >>> 16) &&& 0x0F

/-- `Vietnam.lunar_month_days` restricted to in-range years (source lines 144-146). -/
def lunar_month_days (lunar_year lunar_month : Nat) : Nat :=
  29 + ((encoded lunar_year >>> lunar_month) &&& 0x01)

/-- `Vietnam.lunar_year_days` (source lines 148-154): sums
`29 + ((months_day >> i) & 0x01)` for `i` in `range(1, 13)` when the year has
no leap month (`get_leap_month == 0x0F`) and in `range(1, 14)` otherwise. -/
def lunar_year_days (year : Nat) : Nat :=
  (List.range' 1 (if get_leap_month year == 0x0F then 12 else 13)).foldl
    (fun days i => days + (29 + ((encoded year >>> i) &&& 0x01))) 0

/-- `Vietnam.get_solar_date` (source lines 157-165): day span from the anchor,
summing `lunar_year_days` over `range(START_YEAR, year)`, then
`lunar_month_days` over `range(1, month + (month > leap_month))`, then
`day - 1`; the result is `SOLAR_START_DATE + timedelta(span_days)`. -/
def get_solar_date (year month day : Nat) : Nat :=
  let span1 := (List.range' START_YEAR (year - START_YEAR)).foldl
      (fun s y => s + lunar_year_days y) 0
  let leap_month := get_leap_month year
  let span2 := (List.range' 1 (month - 1 + (if leap_month < month then 1 else 0))).foldl
      (fun s m => s + lunar_month_days year m) 0
  SOLAR_START_DATE + span1 + span2 + (day - 1)

/-- Modelled from the spec: the month-length readout the specification
describes, with bits 0-12 holding months 1..13 so that month `m` corresponds
to bit `m - 1`.  This follows the words of the spec only, for comparison with
`lunar_month_days`, which is taken from the source. -/
def lunar_month_days_spec (lunar_year lunar_month : Nat) : Nat :=
  29 + ((encoded lunar_year >>> (lunar_month - 1)) &&& 0x01)

/-- Modelled from the spec: weekday constant `SAT` of `holidays.constants`
(not under src/), the Saturday value of Python `date.weekday()`. -/
def SAT : Nat := 5

/-- Modelled from the spec: weekday constant `SUN` of `holidays.constants`
(not under src/), the Sunday value of Python `date.weekday()`. -/
def SUN : Nat := 6

/-- Python `range(a, b)` as a list of integers. -/
def pyRange (a b : Int) : List Int := (List.range (b - a).toNat).map fun k => a + (k : Int)

/-- The Tet label list `name` of `_populate` (source lines 47-53), in source
order; the loop reads it at indices `-1` (last element) through `4`. -/
def tet_names : List String :=
  ["Vietnamese New Year", "The second day of Tet Holiday", "The third day of Tet Holiday",
   "The forth day of Tet Holiday", "The fifth day of Tet Holiday",
   "Vietnamese New Year\x27s Eve"]

/-- Python list indexing for the label list: a negative index wraps from the
end. -/
def pyStrIndex (l : List String) (i : Int) : String :=
  if 0 ≤ i then l.getD i.toNat "" else l.getD (l.length - (-i).toNat) ""

/-- `Vietnam._populate` (source lines 33-88), modelled as the ordered list of
`(date, name)` assignments `self[date] = name` that the method performs.
Modelled from the spec: the holiday mapping owned by `HolidayBase` (not under
src/) receives these insertions, and `observed` is the configuration flag of
that base class.  Dates are rata-die numbers cast to `Int` so that the
day-offset arithmetic of the Tet loop (`rd(days=+i)` with `i` from -1) is
literal. -/
def _populate (observed : Bool) (year : Nat) : List (Int × String) :=
  let nyName := "International New Year\x27s Day"
  let first_date : Int := (rataDie year 1 1 : Nat)
  ([(first_date, nyName)] ++
    (if observed then
      [(first_date, nyName)] ++
      (if pyWeekday (rataDie year 1 1) = SAT then
        [(first_date + 2, nyName ++ " observed")]
       else if pyWeekday (rataDie year 1 1) = SUN then
        [(first_date + 1, nyName ++ " observed")]
       else [])
     else [])) ++
  (if observed then
     (pyRange (-1) 5).map fun i =>
       (((get_solar_date year 1 1 : Nat) : Int) + i, pyStrIndex tet_names i)
   else []) ++
  (if 2007 ≤ year then
     [(((get_solar_date year 3 10 : Nat) : Int), "Hung Kings Commemoration Day")]
   else []) ++
  [(((rataDie year 4 30 : Nat) : Int), "Liberation Day/Reunification Day"),
   (((rataDie year 5 1 : Nat) : Int), "International Labor Day"),
   (((rataDie year 9 2 : Nat) : Int), "Independence Day")]

end Vietnam

namespace Vietnam

lemma length_g_lunar_month_days : g_lunar_month_days.length = 199 := by decide

lemma END_YEAR_eq : END_YEAR = 2099 := by decide

lemma foldl_add_init (f : Nat → Nat) : ∀ (l : List Nat) (c : Nat),
    l.foldl (fun s x => s + f x) c = c + l.foldl (fun s x => s + f x) 0
  | [], c => by simp
  | x :: l, c => by
    simp only [List.foldl_cons, Nat.zero_add]
    rw [foldl_add_init f l (c + f x), foldl_add_init f l (f x)]
    omega

lemma range'_foldl_eq_sum (f : Nat → Nat) : ∀ (n a : Nat),
    (List.range' a n).foldl (fun s x => s + f x) 0 = ∑ x in Finset.Ico a (a + n), f x
  | 0, a => by simp
  | n + 1, a => by
    rw [List.range'_succ]
    simp only [List.foldl_cons, Nat.zero_add]
    rw [foldl_add_init f (List.range' (a + 1) n) (f a), range'_foldl_eq_sum f n (a + 1),
        Finset.sum_eq_sum_Ico_succ_bot (by omega : a < a + (n + 1)) f]
    have h : a + 1 + n = a + (n + 1) := by omega
    rw [h]

lemma in_range_transport (P : Nat → Prop) (H : ∀ i, i < 199 → P (1901 + i))
    {y : Nat} (h1 : 1901 ≤ y) (h2 : y ≤ 2099) : P y := by
  have h := H (y - 1901) (by omega)
  have hy : 1901 + (y - 1901) = y := by omega
  rwa [hy] at h

lemma leap_month_lb : ∀ i, i < 199 → 2 ≤ get_leap_month (1901 + i) := by decide

lemma year_days_bounds_aux : ∀ i, i < 199 →
    (if get_leap_month (1901 + i) = 15
      then 353 ≤ lunar_year_days (1901 + i) ∧ lunar_year_days (1901 + i) ≤ 355
      else 383 ≤ lunar_year_days (1901 + i) ∧ lunar_year_days (1901 + i) ≤ 385) := by decide

lemma get_solar_date_closed (year month day : Nat) (hy : START_YEAR ≤ year) (hm : 1 ≤ month) :
    get_solar_date year month day =
      SOLAR_START_DATE + (∑ t in Finset.Ico START_YEAR year, lunar_year_days t) +
      (if month ≤ get_leap_month year
        then ∑ m in Finset.Icc 1 (month - 1), lunar_month_days year m
        else ∑ m in Finset.Icc 1 month, lunar_month_days year m) +
      (day - 1) := by
  obtain ⟨m', rfl⟩ : ∃ m', month = m' + 1 := ⟨month - 1, by omega⟩
  simp only [get_solar_date]
  rw [range'_foldl_eq_sum lunar_year_days, range'_foldl_eq_sum (lunar_month_days year)]
  have h1 : START_YEAR + (year - START_YEAR) = year := by omega
  rw [h1]
  by_cases hlt : get_leap_month year < m' + 1
  · rw [if_pos hlt, if_neg (by omega)]
    have h2 : 1 + (m' + 1 - 1 + 1) = (m' + 1) + 1 := by omega
    rw [h2, Nat.Ico_succ_right]
  · rw [if_neg hlt, if_pos (by omega)]
    have h2 : 1 + (m' + 1 - 1 + 0) = m' + 1 := by omega
    rw [h2]
    have h3 : Finset.Ico 1 (m' + 1) = Finset.Icc 1 (m' + 1 - 1) := by
      rw [show m' + 1 - 1 = m' from rfl, Nat.Ico_succ_right]
    rw [h3]

lemma get_solar_date_first (year : Nat) (h1 : START_YEAR ≤ year) (h2 : year ≤ END_YEAR) :
    get_solar_date year 1 1 =
      SOLAR_START_DATE + ∑ t in Finset.Ico START_YEAR year, lunar_year_days t := by
  have h2' : year ≤ 2099 := END_YEAR_eq ▸ h2
  have hl : 2 ≤ get_leap_month year :=
    in_range_transport (fun t => 2 ≤ get_leap_month t) leap_month_lb h1 h2'
  rw [get_solar_date_closed year 1 1 h1 le_rfl, if_pos (by omega)]
  rw [show Finset.Icc 1 (1 - 1) = (∅ : Finset Nat) from Finset.Icc_eq_empty (by omega)]
  simp

end Vietnam

namespace Vietnam

lemma new_year_window_aux : ∀ i, i < 199 →
    rataDie (1901 + i) 1 1 + 20 ≤ get_solar_date (1901 + i) 1 1 ∧
    get_solar_date (1901 + i) 1 1 ≤ rataDie (1901 + i) 1 1 + 50 := by decide

/-- C1: for every in-range lunar year and valid lunar date, `get_solar_date`
returns the anchor `SOLAR_START_DATE` plus the prefix sum of
`lunar_year_days` over the whole years from `START_YEAR` up to (excluding)
`year`, plus the within-year sum of `lunar_month_days` over months
`1..month-1` when `month ≤ get_leap_month year` and over `1..month` (one
extra month) when `month` is numerically greater than the leap-month index,
plus `day - 1` days. -/
theorem get_solar_date_prefix_sum_formula (year month day : Nat)
    (hy1 : START_YEAR ≤ year) (hy2 : year ≤ END_YEAR)
    (hm1 : 1 ≤ month) (hm2 : month ≤ 13)
    (hd1 : 1 ≤ day) (hd2 : day ≤ lunar_month_days year month) :
    get_solar_date year month day =
      SOLAR_START_DATE + (∑ t in Finset.Ico START_YEAR year, lunar_year_days t) +
      (if month ≤ get_leap_month year
        then ∑ m in Finset.Icc 1 (month - 1), lunar_month_days year m
        else ∑ m in Finset.Icc 1 month, lunar_month_days year m) +
      (day - 1) :=
  get_solar_date_closed year month day hy1 hm1

/-- Witness for C1 at the concrete lunar date (1902, 2, 3). -/
theorem get_solar_date_prefix_sum_formula_witness :
    get_solar_date 1902 2 3 =
      SOLAR_START_DATE + (∑ t in Finset.Ico START_YEAR 1902, lunar_year_days t) +
      (if 2 ≤ get_leap_month 1902
        then ∑ m in Finset.Icc 1 (2 - 1), lunar_month_days 1902 m
        else ∑ m in Finset.Icc 1 2, lunar_month_days 1902 m) +
      (3 - 1) :=
  get_solar_date_prefix_sum_formula 1902 2 3 (by decide) (by decide) (by decide) (by decide)
    (by decide) (by decide)

/-- C2: the start anchor is exact (`get_solar_date START_YEAR 1 1` is
1901-02-19), but the end anchor is not: `get_solar_date 2099 12 30` is
2100-02-08, exactly as the comment next to the constant states, while the
`SOLAR_END_DATE` constant itself reads `datetime(2100, 2, 18)`; the claimed
equality with the constant fails by ten days, so the constant contradicts
both the table and the adjacent source comment. -/
theorem anchor_dates_check :
    get_solar_date 1901 1 1 = SOLAR_START_DATE ∧
    get_solar_date 2099 12 30 = rataDie 2100 2 8 ∧
    SOLAR_END_DATE = rataDie 2100 2 18 ∧
    get_solar_date 2099 12 30 ≠ SOLAR_END_DATE := by
  have h : get_solar_date 2099 12 30 = rataDie 2100 2 8 := by decide
  exact ⟨by decide, h, rfl, by rw [h]; decide⟩

/-- C3: out-of-range lookups do not uniformly fail: for lunar years up to 199
below `START_YEAR` the Python index `lunar_year - START_YEAR` is negative and
wraps to the end of the table, so `get_leap_month(1900)` silently returns 2
(read from the 2099 entry) and `lunar_month_days(1900, 3)` returns 29, with
no error raised; only years above `END_YEAR`, or below `START_YEAR - 199`,
raise `IndexError`. -/
theorem out_of_range_lookup_check :
    get_leap_month? 1900 = some 2 ∧
    lunar_month_days? 1900 3 = some 29 ∧
    get_leap_month? 1702 = some 15 ∧
    get_leap_month? 2100 = none ∧
    get_leap_month? 1701 = none := by decide

/-- C4 counterexample: the packing the claim describes (month `m` at bit
`m - 1`, bits 0-12) disagrees with the code, which reads bit `m`: for year
1901 and month 3 the source helper returns 29 while the spec formula returns
30. -/
theorem month_bit_position_counterexample :
    lunar_month_days 1901 3 = 29 ∧ lunar_month_days_spec 1901 3 = 30 ∧
    lunar_month_days 1901 3 ≠ lunar_month_days_spec 1901 3 := by decide

/-- C4 (amended): the table entry packs month lengths one bit per month at
bit positions 1..13 (month `m` has 30 days exactly when bit `m` of the entry
is set, 29 days otherwise) and the leap-month index in bits 16-19;
`lunar_month_days` and `get_leap_month` read exactly these positions. -/
theorem packed_encoding_readout (year month : Nat)
    (h1 : START_YEAR ≤ year) (h2 : year ≤ END_YEAR)
    (hm1 : 1 ≤ month) (hm2 : month ≤ 13) :
    (lunar_month_days year month = if (encoded year).testBit month then 30 else 29) ∧
    get_leap_month year = encoded year / 2 ^ 16 % 2 ^ 4 := by
  constructor
  · show 29 + ((encoded year >>> month) &&& 1) = _
    rw [Nat.and_one_is_mod, Nat.testBit_to_div_mod, Nat.shiftRight_eq_div_pow]
    rcases Nat.mod_two_eq_zero_or_one (encoded year / 2 ^ month) with h | h <;> simp [h]
  · show (encoded year >>> 16) &&& (2 ^ 4 - 1) = _
    rw [Nat.and_pow_two_sub_one_eq_mod, Nat.shiftRight_eq_div_pow]

/-- Witness for C4 (amended) at year 1901, month 1. -/
theorem packed_encoding_readout_witness :
    (lunar_month_days 1901 1 = if (encoded 1901).testBit 1 then 30 else 29) ∧
    get_leap_month 1901 = encoded 1901 / 2 ^ 16 % 2 ^ 4 :=
  packed_encoding_readout 1901 1 (by decide) (by decide) (by decide) (by decide)

/-- C5: for every supported year the year length lies in [353, 385]; it lies
in [383, 385] exactly when the year has a leap month (index different from
the sentinel 15) and in [353, 355] exactly otherwise. -/
theorem lunar_year_days_range (year : Nat)
    (h1 : START_YEAR ≤ year) (h2 : year ≤ END_YEAR) :
    (353 ≤ lunar_year_days year ∧ lunar_year_days year ≤ 385) ∧
    (get_leap_month year ≠ 15 ↔ (383 ≤ lunar_year_days year ∧ lunar_year_days year ≤ 385)) ∧
    (get_leap_month year = 15 ↔ (353 ≤ lunar_year_days year ∧ lunar_year_days year ≤ 355)) := by
  have h2' : year ≤ 2099 := END_YEAR_eq ▸ h2
  have H : if get_leap_month year = 15
      then 353 ≤ lunar_year_days year ∧ lunar_year_days year ≤ 355
      else 383 ≤ lunar_year_days year ∧ lunar_year_days year ≤ 385 :=
    in_range_transport
      (fun t => if get_leap_month t = 15
        then 353 ≤ lunar_year_days t ∧ lunar_year_days t ≤ 355
        else 383 ≤ lunar_year_days t ∧ lunar_year_days t ≤ 385)
      year_days_bounds_aux h1 h2'
  by_cases hle : get_leap_month year = 15
  · rw [if_pos hle] at H
    refine ⟨⟨by omega, by omega⟩, ?_, ?_⟩
    · simp only [hle, ne_eq, not_true_eq_false, false_iff]
      omega
    · simp only [hle, true_iff]
      omega
  · rw [if_neg hle] at H
    refine ⟨⟨by omega, by omega⟩, ?_, ?_⟩
    · simp only [ne_eq, hle, not_false_eq_true, true_iff]
      omega
    · simp only [hle, false_iff]
      omega

/-- Witness for C5 at year 1901 (a year without leap month). -/
theorem lunar_year_days_range_witness :
    (353 ≤ lunar_year_days 1901 ∧ lunar_year_days 1901 ≤ 385) ∧
    (get_leap_month 1901 ≠ 15 ↔ (383 ≤ lunar_year_days 1901 ∧ lunar_year_days 1901 ≤ 385)) ∧
    (get_leap_month 1901 = 15 ↔ (353 ≤ lunar_year_days 1901 ∧ lunar_year_days 1901 ≤ 355)) :=
  lunar_year_days_range 1901 (by decide) (by decide)

/-- C6 counterexample: for year 2022 the converted lunar New Year is exactly
2022-02-01, zero days away from February 1, so it does not fall within 21-51
days of February 1 as the claim requires. -/
theorem new_year_2022_on_feb_first :
    get_solar_date 2022 1 1 = rataDie 2022 2 1 ∧
    ((get_solar_date 2022 1 1 : Int) - (rataDie 2022 2 1 : Int)).natAbs < 21 := by
  have h : get_solar_date 2022 1 1 = rataDie 2022 2 1 := by decide
  refine ⟨h, ?_⟩
  rw [h]
  simp

/-- C6 (amended): for every supported year the solar date of lunar New Year
falls 20 to 50 days after January 1 of that Gregorian year (its 21st through
51st day, January 21 through February 20), and the map from year to that
solar date is strictly increasing over the supported range. -/
theorem new_year_window_bounds_monotone (y y' : Nat)
    (h1 : START_YEAR ≤ y) (h2 : y ≤ END_YEAR)
    (h1' : START_YEAR ≤ y') (h2' : y' ≤ END_YEAR) :
    (rataDie y 1 1 + 20 ≤ get_solar_date y 1 1 ∧
     get_solar_date y 1 1 ≤ rataDie y 1 1 + 50) ∧
    (y < y' → get_solar_date y 1 1 < get_solar_date y' 1 1) := by
  have hy2 : y ≤ 2099 := END_YEAR_eq ▸ h2
  have hy2' : y' ≤ 2099 := END_YEAR_eq ▸ h2'
  constructor
  · exact in_range_transport
      (fun t => rataDie t 1 1 + 20 ≤ get_solar_date t 1 1 ∧
        get_solar_date t 1 1 ≤ rataDie t 1 1 + 50)
      new_year_window_aux h1 hy2
  · intro hlt
    rw [get_solar_date_first y h1 h2, get_solar_date_first y' h1' h2']
    have hsplit := Finset.sum_Ico_consecutive lunar_year_days h1 (le_of_lt hlt)
    have H : if get_leap_month y = 15
        then 353 ≤ lunar_year_days y ∧ lunar_year_days y ≤ 355
        else 383 ≤ lunar_year_days y ∧ lunar_year_days y ≤ 385 :=
      in_range_transport
        (fun t => if get_leap_month t = 15
          then 353 ≤ lunar_year_days t ∧ lunar_year_days t ≤ 355
          else 383 ≤ lunar_year_days t ∧ lunar_year_days t ≤ 385)
        year_days_bounds_aux h1 hy2
    have hpos : 0 < lunar_year_days y := by
      by_cases hle : get_leap_month y = 15
      · rw [if_pos hle] at H; omega
      · rw [if_neg hle] at H; omega
    have hmem : y ∈ Finset.Ico y y' := Finset.mem_Ico.mpr ⟨le_rfl, hlt⟩
    have hle' : lunar_year_days y ≤ ∑ t in Finset.Ico y y', lunar_year_days t :=
      Finset.single_le_sum (fun i _ => Nat.zero_le _) hmem
    omega

/-- Witness for C6 (amended) at years 1901 and 1902. -/
theorem new_year_window_bounds_monotone_witness :
    ((rataDie 1901 1 1 + 20 ≤ get_solar_date 1901 1 1 ∧
      get_solar_date 1901 1 1 ≤ rataDie 1901 1 1 + 50) ∧
     (1901 < 1902 → get_solar_date 1901 1 1 < get_solar_date 1902 1 1)) :=
  new_year_window_bounds_monotone 1901 1902 (by decide) (by decide) (by decide) (by decide)

/-- C10: for every in-range lunar year the month-length lookup is total over
months 1..13 and returns 29 or 30 with no failure path, including month 13
for years whose leap-month nibble is the no-leap sentinel 15. -/
theorem lunar_month_days_total (lunar_year : Int) (lunar_month : Nat)
    (h1 : (START_YEAR : Int) ≤ lunar_year) (h2 : lunar_year ≤ (END_YEAR : Int))
    (hm1 : 1 ≤ lunar_month) (hm2 : lunar_month ≤ 13) :
    ∃ v, lunar_month_days? lunar_year lunar_month = some v ∧ (v = 29 ∨ v = 30) := by
  have hS : (START_YEAR : Int) = 1901 := by norm_num [START_YEAR]
  have hE : (END_YEAR : Int) = 2099 := by norm_num [END_YEAR_eq]
  rw [hS] at h1
  rw [hE] at h2
  simp only [lunar_month_days?, pyGet]
  have h0 : 0 ≤ lunar_year - (START_YEAR : Int) := by rw [hS]; omega
  rw [if_pos h0]
  have hbound : (lunar_year - (START_YEAR : Int)).toNat < g_lunar_month_days.length := by
    rw [length_g_lunar_month_days, hS]
    omega
  obtain ⟨e, he⟩ : ∃ e, g_lunar_month_days[(lunar_year - (START_YEAR : Int)).toNat]? = some e :=
    ⟨_, List.getElem?_eq_getElem hbound⟩
  rw [he]
  refine ⟨29 + ((e >>> lunar_month) &&& 1), rfl, ?_⟩
  have hv : (e >>> lunar_month) &&& 1 ≤ 1 := Nat.and_le_right
  omega

/-- Witness for C10 at lunar year 1901 (no leap month) and month 13. -/
theorem lunar_month_days_total_witness :
    ∃ v, lunar_month_days? 1901 13 = some v ∧ (v = 29 ∨ v = 30) :=
  lunar_month_days_total 1901 13 (by decide) (by decide) (by decide) (by decide)

end Vietnam

namespace Vietnam

lemma populate_keys_aux : ∀ i, i < 199 →
    ((_populate false (1901 + i)).map Prod.fst).Nodup ∧
    (((_populate true (1901 + i)).map Prod.fst).drop 1).Nodup ∧
    ((_populate true (1901 + i)).map Prod.fst).take 2 =
      [((rataDie (1901 + i) 1 1 : Nat) : Int), ((rataDie (1901 + i) 1 1 : Nat) : Int)] := by
  decide

/-- C7: for every in-range year, with `observed = false` the population trace
contains no entry labelled with any of the six lunar-New-Year-window names,
and with `observed = true` it contains exactly the six entries at consecutive
dates from one day before through four days after the resolved solar date of
lunar (year, 1, 1), each with its distinct fixed label. -/
theorem tet_window_gating (year : Nat)
    (h1 : START_YEAR ≤ year) (h2 : year ≤ END_YEAR) :
    (_populate false year).filter (fun p => p.2 ∈ tet_names) = [] ∧
    (_populate true year).filter (fun p => p.2 ∈ tet_names) =
      [(((get_solar_date year 1 1 : Nat) : Int) - 1, "Vietnamese New Year\x27s Eve"),
       (((get_solar_date year 1 1 : Nat) : Int), "Vietnamese New Year"),
       (((get_solar_date year 1 1 : Nat) : Int) + 1, "The second day of Tet Holiday"),
       (((get_solar_date year 1 1 : Nat) : Int) + 2, "The third day of Tet Holiday"),
       (((get_solar_date year 1 1 : Nat) : Int) + 3, "The forth day of Tet Holiday"),
       (((get_solar_date year 1 1 : Nat) : Int) + 4, "The fifth day of Tet Holiday")] := by
  have hr : pyRange (-1) 5 = [-1, 0, 1, 2, 3, 4] := by decide
  have e0 : pyStrIndex tet_names (-1) = "Vietnamese New Year\x27s Eve" := by decide
  have e1 : pyStrIndex tet_names 0 = "Vietnamese New Year" := by decide
  have e2 : pyStrIndex tet_names 1 = "The second day of Tet Holiday" := by decide
  have e3 : pyStrIndex tet_names 2 = "The third day of Tet Holiday" := by decide
  have e4 : pyStrIndex tet_names 3 = "The forth day of Tet Holiday" := by decide
  have e5 : pyStrIndex tet_names 4 = "The fifth day of Tet Holiday" := by decide
  constructor
  · simp only [_populate, List.filter_append]
    split_ifs <;> (try contradiction) <;> simp [List.filter, tet_names]
  · simp only [_populate, hr, List.map_cons, List.map_nil, e0, e1, e2, e3, e4, e5,
      List.filter_append]
    split_ifs <;> (try contradiction) <;> simp [List.filter, tet_names, sub_eq_add_neg]

/-- Witness for C7 at year 2023. -/
theorem tet_window_gating_witness :
    (_populate false 2023).filter (fun p => p.2 ∈ tet_names) = [] ∧
    (_populate true 2023).filter (fun p => p.2 ∈ tet_names) =
      [(((get_solar_date 2023 1 1 : Nat) : Int) - 1, "Vietnamese New Year\x27s Eve"),
       (((get_solar_date 2023 1 1 : Nat) : Int), "Vietnamese New Year"),
       (((get_solar_date 2023 1 1 : Nat) : Int) + 1, "The second day of Tet Holiday"),
       (((get_solar_date 2023 1 1 : Nat) : Int) + 2, "The third day of Tet Holiday"),
       (((get_solar_date 2023 1 1 : Nat) : Int) + 3, "The forth day of Tet Holiday"),
       (((get_solar_date 2023 1 1 : Nat) : Int) + 4, "The fifth day of Tet Holiday")] :=
  tet_window_gating 2023 (by decide) (by decide)

/-- C8: for every in-range year and either observed mode, the population
trace contains the unshifted entry at (year, Jan, 1); the trace contains a
shifted entry exactly when observed is enabled and Jan 1 falls on Saturday
(then at Jan 3) or Sunday (then at Jan 2), labelled with the observed suffix;
on any other weekday, or with observed disabled, no shifted entry exists. -/
theorem new_year_weekend_shift (year : Nat) (obs : Bool)
    (h1 : START_YEAR ≤ year) (h2 : year ≤ END_YEAR) :
    (((rataDie year 1 1 : Nat) : Int), "International New Year\x27s Day") ∈ _populate obs year ∧
    ((_populate obs year).filter
        (fun p => p.2 = "International New Year\x27s Day observed") =
      if obs then
        (if pyWeekday (rataDie year 1 1) = SAT then
          [(((rataDie year 1 3 : Nat) : Int), "International New Year\x27s Day observed")]
         else if pyWeekday (rataDie year 1 1) = SUN then
          [(((rataDie year 1 2 : Nat) : Int), "International New Year\x27s Day observed")]
         else [])
      else []) := by
  have h3 : (rataDie year 1 3 : Nat) = rataDie year 1 1 + 2 := by
    simp only [rataDie]
    try omega
  have h2w : (rataDie year 1 2 : Nat) = rataDie year 1 1 + 1 := by
    simp only [rataDie]
    try omega
  have hr : pyRange (-1) 5 = [-1, 0, 1, 2, 3, 4] := by decide
  have e0 : pyStrIndex tet_names (-1) = "Vietnamese New Year\x27s Eve" := by decide
  have e1 : pyStrIndex tet_names 0 = "Vietnamese New Year" := by decide
  have e2 : pyStrIndex tet_names 1 = "The second day of Tet Holiday" := by decide
  have e3 : pyStrIndex tet_names 2 = "The third day of Tet Holiday" := by decide
  have e4 : pyStrIndex tet_names 3 = "The forth day of Tet Holiday" := by decide
  have e5 : pyStrIndex tet_names 4 = "The fifth day of Tet Holiday" := by decide
  constructor
  · cases obs
    · simp [_populate]
    · simp [_populate]
  · cases obs
    · simp only [_populate, hr, List.map_cons, List.map_nil, e0, e1, e2, e3, e4, e5, h3, h2w,
        List.filter_append]
      split_ifs <;> (try contradiction) <;> simp [List.filter]
    · simp only [_populate, hr, List.map_cons, List.map_nil, e0, e1, e2, e3, e4, e5, h3, h2w,
        List.filter_append]
      split_ifs <;> (try contradiction) <;> simp [List.filter]

/-- Witness for C8 at year 2022 (its January 1 is a Saturday) with observed
enabled. -/
theorem new_year_weekend_shift_witness :
    (((rataDie 2022 1 1 : Nat) : Int), "International New Year\x27s Day") ∈ _populate true 2022 ∧
    ((_populate true 2022).filter
        (fun p => p.2 = "International New Year\x27s Day observed") =
      if true then
        (if pyWeekday (rataDie 2022 1 1) = SAT then
          [(((rataDie 2022 1 3 : Nat) : Int), "International New Year\x27s Day observed")]
         else if pyWeekday (rataDie 2022 1 1) = SUN then
          [(((rataDie 2022 1 2 : Nat) : Int), "International New Year\x27s Day observed")]
         else [])
      else []) :=
  new_year_weekend_shift 2022 true (by decide) (by decide)

/-- C9 counterexample: with observed enabled the method assigns the key
(1901, Jan, 1) twice (the unconditional assignment at source line 38 and the
repeated assignment at line 40), so the keys written during one call are not
pairwise distinct. -/
theorem populate_jan_first_double_write :
    ¬ ((_populate true 1901).map Prod.fst).Nodup ∧
    ((_populate true 1901).map Prod.fst).take 2 =
      [((rataDie 1901 1 1 : Nat) : Int), ((rataDie 1901 1 1 : Nat) : Int)] := by
  decide

/-- C9 (amended): for every in-range year, with observed disabled all written
date keys are pairwise distinct; with observed enabled the only repetition is
that the solar New Year rule writes (year, Jan, 1) twice in a row with the
same name, and apart from that first repeated write all keys are pairwise
distinct. -/
theorem populate_distinct_keys (year : Nat)
    (h1 : START_YEAR ≤ year) (h2 : year ≤ END_YEAR) :
    ((_populate false year).map Prod.fst).Nodup ∧
    (((_populate true year).map Prod.fst).drop 1).Nodup ∧
    ((_populate true year).map Prod.fst).take 2 =
      [((rataDie year 1 1 : Nat) : Int), ((rataDie year 1 1 : Nat) : Int)] := by
  have h2' : year ≤ 2099 := END_YEAR_eq ▸ h2
  exact in_range_transport
    (fun t => ((_populate false t).map Prod.fst).Nodup ∧
      (((_populate true t).map Prod.fst).drop 1).Nodup ∧
      ((_populate true t).map Prod.fst).take 2 =
        [((rataDie t 1 1 : Nat) : Int), ((rataDie t 1 1 : Nat) : Int)])
    populate_keys_aux h1 h2'

/-- Witness for C9 (amended) at year 1902. -/
theorem populate_distinct_keys_witness :
    ((_populate false 1902).map Prod.fst).Nodup ∧
    (((_populate true 1902).map Prod.fst).drop 1).Nodup ∧
    ((_populate true 1902).map Prod.fst).take 2 =
      [((rataDie 1902 1 1 : Nat) : Int), ((rataDie 1902 1 1 : Nat) : Int)] :=
  populate_distinct_keys 1902 (by decide) (by decide)

end Vietnam
